import Mathlib

/-!
# Verification of the RSI trading agent (`RSI_trading_aiAgent.py`)

A shallow embedding of the agent's request-signing protocol, exchange
request handling, position orchestration, indicator fetch, advisor glue
and cycle scheduler, with theorems settling the specification's claims.

Conventions of the embedding:
* Python byte strings are `List Nat` with every element `< 256`.
* Python `str` is Lean `String`; `str.upper()` is `pyUpper` and
  `str.strip()` is `pyStrip`, defined below over the character list.
* The order payloads the program builds are flat JSON objects whose values
  are strings, embedded as `List (String × String)` in insertion order
  (Python dicts preserve insertion order, which `json.dumps` follows).
* Fallible effects (HTTP transport, JSON parsing) are embedded as explicit
  outcome types; a caught Python exception is an explicit constructor.
-/

namespace RSIAgent

/-! ## Byte-level primitives: SHA-256, HMAC, base64, UTF-8

The Python code calls `hashlib.sha256`, `hmac.new` and `base64.b64encode`;
they are modelled by executable implementations of FIPS 180-4 SHA-256,
RFC 2104 HMAC and RFC 4648 base64 over `List Nat` bytes. -/

/-- Truncate to a 32-bit word (arithmetic is mod 2^32). -/
def w32 (x : Nat) : Nat := x % 4294967296

/-- Right-rotation of a 32-bit word by `n` places. -/
def rotr32 (n x : Nat) : Nat := w32 ((x >>> n) ||| (x <<< (32 - n)))

/-- SHA-256 `Ch` function; `¬x` is xor with the 32-bit mask. -/
def shaCh (x y z : Nat) : Nat := (x &&& y) ^^^ ((x ^^^ 4294967295) &&& z)

/-- SHA-256 `Maj` function. -/
def shaMaj (x y z : Nat) : Nat := (x &&& y) ^^^ (x &&& z) ^^^ (y &&& z)

/-- SHA-256 Σ₀. -/
def bigSigma0 (x : Nat) : Nat := rotr32 2 x ^^^ rotr32 13 x ^^^ rotr32 22 x

/-- SHA-256 Σ₁. -/
def bigSigma1 (x : Nat) : Nat := rotr32 6 x ^^^ rotr32 11 x ^^^ rotr32 25 x

/-- SHA-256 σ₀. -/
def smallSigma0 (x : Nat) : Nat := rotr32 7 x ^^^ rotr32 18 x ^^^ (x >>> 3)

/-- SHA-256 σ₁. -/
def smallSigma1 (x : Nat) : Nat := rotr32 17 x ^^^ rotr32 19 x ^^^ (x >>> 10)

/-- The 64 SHA-256 round constants (FIPS 180-4 §4.2.2, here in decimal). -/
def K256 : List Nat :=
  [1116352408, 1899447441, 3049323471, 3921009573, 961987163,
   1508970993, 2453635748, 2870763221, 3624381080, 310598401,
   607225278, 1426881987, 1925078388, 2162078206, 2614888103,
   3248222580, 3835390401, 4022224774, 264347078, 604807628,
   770255983, 1249150122, 1555081692, 1996064986, 2554220882,
   2821834349, 2952996808, 3210313671, 3336571891, 3584528711,
   113926993, 338241895, 666307205, 773529912, 1294757372,
   1396182291, 1695183700, 1986661051, 2177026350, 2456956037,
   2730485921, 2820302411, 3259730800, 3345764771, 3516065817,
   3600352804, 4094571909, 275423344, 430227734, 506948616,
   659060556, 883997877, 958139571, 1322822218, 1537002063,
   1747873779, 1955562222, 2024104815, 2227730452, 2361852424,
   2428436474, 2756734187, 3204031479, 3329325298]

/-- The SHA-256 initial hash value (FIPS 180-4 §5.3.3, in decimal). -/
def H256 : List Nat :=
  [1779033703, 3144134277, 1013904242, 2773480762,
   1359893119, 2600822924, 528734635, 1541459225]

/-- Big-endian regrouping of bytes into 32-bit words. -/
def bytesToWords : List Nat → List Nat
  | b0 :: b1 :: b2 :: b3 :: rest =>
      (((b0 * 256 + b1) * 256 + b2) * 256 + b3) :: bytesToWords rest
  | _ => []

/-- Extend the 16 block words to the 64-entry message schedule. -/
def buildSchedule (w16 : List Nat) : List Nat :=
  (List.range 48).foldl
    (fun w _ =>
      let n := w.length
      w ++ [w32 (smallSigma1 (w.getD (n - 2) 0) + w.getD (n - 7) 0 +
            smallSigma0 (w.getD (n - 15) 0) + w.getD (n - 16) 0)])
    w16

/-- One SHA-256 round on the eight-word working state, consuming a
round-constant/schedule-word pair. -/
def shaRound (st : List Nat) (kw : Nat × Nat) : List Nat :=
  match st with
  | [a, b, c, d, e, f, g, h] =>
      let t1 := w32 (h + bigSigma1 e + shaCh e f g + kw.1 + kw.2)
      let t2 := w32 (bigSigma0 a + shaMaj a b c)
      [w32 (t1 + t2), a, b, c, w32 (d + t1), e, f, g]
  | other => other

/-- Compress one 64-byte block into the running hash value. -/
def shaCompress (hs : List Nat) (block : List Nat) : List Nat :=
  let w := buildSchedule (bytesToWords block)
  let st := (K256.zip w).foldl shaRound hs
  (hs.zip st).map (fun p => w32 (p.1 + p.2))

/-- The message length as eight big-endian bytes. -/
def lenBytes8 (n : Nat) : List Nat :=
  (List.range 8).map (fun i => (n >>> (8 * (7 - i))) % 256)

/-- FIPS 180-4 padding: `0x80`, zeros to 56 mod 64, then the bit length. -/
def shaPad (msg : List Nat) : List Nat :=
  let padZeros := (119 - msg.length % 64) % 64
  msg ++ 0x80 :: (List.replicate padZeros 0 ++ lenBytes8 (8 * msg.length))

/-- Split into 64-byte chunks, with fuel for structural recursion; each
step consumes at least one byte, so fuel = length always suffices. -/
def chunks64Go : Nat → List Nat → List (List Nat)
  | _, [] => []
  | 0, l => [l]
  | fuel + 1, l => l.take 64 :: chunks64Go fuel (l.drop 64)

/-- Split a byte list into 64-byte chunks. -/
def chunks64 (l : List Nat) : List (List Nat) := chunks64Go l.length l

/-- A 32-bit word as four big-endian bytes. -/
def wordBytes (w : Nat) : List Nat :=
  [(w >>> 24) % 256, (w >>> 16) % 256, (w >>> 8) % 256, w % 256]

/-- SHA-256 of a byte string, as the 32 digest bytes. -/
def sha256 (msg : List Nat) : List Nat :=
  (((chunks64 (shaPad msg)).foldl shaCompress H256).map wordBytes).flatten

/-- RFC 2104 HMAC-SHA256 (block size 64 bytes). -/
def hmacSha256 (key msg : List Nat) : List Nat :=
  let k0 := if 64 < key.length then sha256 key else key
  let kp := k0 ++ List.replicate (64 - k0.length) 0
  sha256 ((kp.map (fun b => b ^^^ 0x5c)) ++
    sha256 ((kp.map (fun b => b ^^^ 0x36)) ++ msg))

/-- The base64 alphabet. -/
def b64Char (n : Nat) : Char :=
  if n < 26 then Char.ofNat (65 + n)
  else if n < 52 then Char.ofNat (97 + (n - 26))
  else if n < 62 then Char.ofNat (48 + (n - 52))
  else if n = 62 then '+' else '/'

/-- RFC 4648 base64 encoding with `=` padding. -/
def base64Encode : List Nat → String
  | b0 :: b1 :: b2 :: rest =>
      String.mk [b64Char (b0 >>> 2),
        b64Char (((b0 &&& 3) <<< 4) ||| (b1 >>> 4)),
        b64Char (((b1 &&& 15) <<< 2) ||| (b2 >>> 6)),
        b64Char (b2 &&& 63)] ++ base64Encode rest
  | [b0, b1] =>
      String.mk [b64Char (b0 >>> 2),
        b64Char (((b0 &&& 3) <<< 4) ||| (b1 >>> 4)),
        b64Char ((b1 &&& 15) <<< 2), '=']
  | [b0] =>
      String.mk [b64Char (b0 >>> 2), b64Char ((b0 &&& 3) <<< 4), '=', '=']
  | [] => ""

/-- UTF-8 encoding of one code point. -/
def utf8Char (c : Char) : List Nat :=
  let n := c.toNat
  if n < 0x80 then [n]
  else if n < 0x800 then
    [0xc0 ||| (n >>> 6), 0x80 ||| (n &&& 0x3f)]
  else if n < 0x10000 then
    [0xe0 ||| (n >>> 12), 0x80 ||| ((n >>> 6) &&& 0x3f), 0x80 ||| (n &&& 0x3f)]
  else
    [0xf0 ||| (n >>> 18), 0x80 ||| ((n >>> 12) &&& 0x3f),
     0x80 ||| ((n >>> 6) &&& 0x3f), 0x80 ||| (n &&& 0x3f)]

/-- UTF-8 encoding of a string (Python's `str.encode("utf-8")`). -/
def utf8 (s : String) : List Nat := (s.data.map utf8Char).flatten

/-! ## Python string methods -/

/-- The whitespace `str.strip()` removes: space, tab, newline, carriage
return, vertical tab, form feed. -/
def pyIsSpace (c : Char) : Bool :=
  c = ' ' || c = '\t' || c = '\n' || c.toNat = 13 || c.toNat = 11 || c.toNat = 12

/-- Python `str.strip()`: drop leading and trailing whitespace. -/
def pyStrip (s : String) : String :=
  String.mk (((s.data.dropWhile pyIsSpace).reverse.dropWhile pyIsSpace).reverse)

/-- Python `str.upper()` (ASCII fragment, which is all this program
feeds it). -/
def pyUpper (s : String) : String := String.mk (s.data.map Char.toUpper)

/-! ## Python `json.dumps` on flat string dictionaries

Every dictionary this program serializes maps string keys to string values,
so the embedding of `json.dumps` covers exactly those objects.  `json.dumps`
is called in two configurations: with `separators=(",", ":")` (compact, used
for signing, line 37) and with the defaults `(", ", ": ")` (used for the
transmitted request body, line 57). -/

/-- A lowercase hexadecimal digit. -/
def hexDigit (n : Nat) : Char :=
  if n < 10 then Char.ofNat (48 + n) else Char.ofNat (87 + n)

/-- Four lowercase hex digits (the `%04x` of a `\u` escape). -/
def hex4 (n : Nat) : String :=
  String.mk [hexDigit ((n >>> 12) &&& 15), hexDigit ((n >>> 8) &&& 15),
    hexDigit ((n >>> 4) &&& 15), hexDigit (n &&& 15)]

/-- CPython's `py_encode_basestring_ascii` escaping of one character:
backslash, quote and the named control escapes; printable ASCII verbatim;
everything else as `\uXXXX` (with surrogate pairs above U+FFFF). -/
def pyJsonEscapeChar (c : Char) : String :=
  if c = '\\' then "\\\\"
  else if c = '"' then "\\\""
  else if c.toNat = 8 then "\\b"
  else if c.toNat = 12 then "\\f"
  else if c = '\n' then "\\n"
  else if c.toNat = 13 then "\\r"
  else if c = '\t' then "\\t"
  else if 0x20 ≤ c.toNat ∧ c.toNat ≤ 0x7e then String.singleton c
  else if c.toNat < 0x10000 then "\\u" ++ hex4 c.toNat
  else
    let n := c.toNat - 0x10000
    "\\u" ++ hex4 (0xd800 ||| (n >>> 10)) ++ "\\u" ++ hex4 (0xdc00 ||| (n &&& 0x3ff))

/-- A JSON string literal: quoted, escaped. -/
def jsonQuote (s : String) : String :=
  "\"" ++ String.join (s.data.map pyJsonEscapeChar) ++ "\""

/-- The `key <kvSep> value` entries of a serialized object, joined by
`itemSep` — `json.dumps` emits dict entries in insertion order. -/
def dumpsEntries (itemSep kvSep : String) : List (String × String) → String
  | [] => ""
  | [(k, v)] => jsonQuote k ++ kvSep ++ jsonQuote v
  | (k, v) :: e :: rest =>
      jsonQuote k ++ kvSep ++ jsonQuote v ++ itemSep ++
        dumpsEntries itemSep kvSep (e :: rest)

/-- A serialized JSON object with the given separators. -/
def dumpsObj (itemSep kvSep : String) (d : List (String × String)) : String :=
  "\x7b" ++ dumpsEntries itemSep kvSep d ++ "\x7d"

/-- `json.dumps(d, separators=(",", ":"))` — compact, no inserted
whitespace (used on line 37 to build the signed string). -/
def pyDumpsCompact (d : List (String × String)) : String := dumpsObj "," ":" d

/-- `json.dumps(d)` with default separators `(", ", ": ")` — a space after
each comma and colon (used on line 57 for the transmitted body). -/
def pyDumpsDefault (d : List (String × String)) : String := dumpsObj ", " ": " d

/-! ## The signing protocol (`generate_signature`, lines 36–40) -/

/-- An order payload: a flat JSON object in insertion order. -/
abbrev Payload := List (String × String)

/-- Line 37: `body_str = json.dumps(body, separators=(",", ":")) if body
else ""`.  Python truthiness: both `None` and the empty dict are falsy, so
both canonicalize to the empty string. -/
def body_str : Option Payload → String
  | some l => if l.isEmpty then "" else pyDumpsCompact l
  | none => ""

/-- Line 38: `pre_hash = f"{timestamp}{method.upper()}{request_path}{body_str}"`. -/
def pre_hash (timestamp method request_path : String) (body : Option Payload) : String :=
  timestamp ++ pyUpper method ++ request_path ++ body_str body

/-- Lines 36–40: base64 of the HMAC-SHA256, keyed by the UTF-8 bytes of
`secret_key`, over the UTF-8 bytes of `pre_hash`.  A pure function of its
five arguments: deterministic, and `body` is read, never written. -/
def generate_signature (timestamp method request_path : String)
    (body : Option Payload) (secret_key : String) : String :=
  base64Encode (hmacSha256 (utf8 secret_key)
    (utf8 (pre_hash timestamp method request_path body)))

/-! ## The exchange client (`bitget_request`, lines 42–64) -/

/-- Line 23. -/
def BASE_URL : String := "https://api.bitget.com"

/-- Line 25. -/
def SYMBOL : String := "ETHUSDT"

/-- The observable HTTP call `bitget_request` issues (line 57): the
signature header is computed over the compact serialization of the payload
(via `generate_signature`), while `data`, the transmitted body, is
`json.dumps(payload)` with the default separators. -/
structure SentRequest where
  method : String
  url : String
  sign : String
  timestampHeader : String
  data : String
deriving DecidableEq

/-- Lines 44–57 of `bitget_request`: build the signed request actually
sent, for a given fresh millisecond timestamp string. -/
def bitget_request_sent (timestamp secret method endpoint : String)
    (payload : Payload) : SentRequest :=
  { method := method
    url := BASE_URL ++ endpoint
    sign := generate_signature timestamp method endpoint (some payload) secret
    timestampHeader := timestamp
    data := pyDumpsDefault payload }

/-- A JSON value as the exchange may return it (string leaves and objects
suffice for the shapes this program handles). -/
inductive ExJson where
  | str : String → ExJson
  | obj : List (String × ExJson) → ExJson

/-- An HTTP response as seen by `bitget_request`: status code, raw text,
and `some r` exactly when `response.json()` parses to `r` (`none` models
the parser raising on a malformed or empty body). -/
structure HttpResponse where
  status_code : Nat
  text : String
  json : Option ExJson

/-- What `bitget_request` does with the response (lines 58–64): the status
code and the result are printed, and the result is returned. -/
structure BitgetOutcome where
  logged_status : Nat
  logged_result : ExJson
  result : ExJson

/-- Lines 58–64: `result = response.json()`, with a parse failure caught
and replaced by the structured value `{"error": response.text}`; the status
and result are printed; `result` is returned. -/
def bitget_request_handle (resp : HttpResponse) : BitgetOutcome :=
  let result := match resp.json with
    | some r => r
    | none => ExJson.obj [("error", ExJson.str resp.text)]
  { logged_status := resp.status_code
    logged_result := result
    result := result }

/-! ## Position orchestration (`close_position` / `open_position`,
lines 66–95)

Each operation performs exactly one `bitget_request`; the embedding
records the order request it submits (the response never influences
control flow — neither function reads the result). -/

/-- One order submission: the method, endpoint and payload handed to
`bitget_request`. -/
structure OrderReq where
  method : String
  endpoint : String
  payload : Payload
deriving DecidableEq

/-- Lines 66–80: close the opposite position before opening a new one;
`opposite_side = "buy" if side == "sell" else "sell"`, fixed size `"1000"`,
`tradeSide "close"`. -/
def close_position (side : String) : OrderReq :=
  let opposite_side := if side = "sell" then "buy" else "sell"
  { method := "POST"
    endpoint := "/api/v2/mix/order/place-order"
    payload := [("symbol", SYMBOL), ("productType", "USDT-FUTURES"),
      ("marginMode", "isolated"), ("marginCoin", "USDT"), ("size", "1000"),
      ("side", opposite_side), ("tradeSide", "close"),
      ("orderType", "market"), ("force", "gtc")] }

/-- Lines 82–95: open a new position in the given direction with fixed
size `"0.05"` and `tradeSide "open"`. -/
def open_position (side : String) : OrderReq :=
  { method := "POST"
    endpoint := "/api/v2/mix/order/place-order"
    payload := [("symbol", SYMBOL), ("productType", "USDT-FUTURES"),
      ("marginMode", "isolated"), ("marginCoin", "USDT"), ("size", "0.05"),
      ("side", side), ("tradeSide", "open"),
      ("orderType", "market"), ("force", "gtc")] }

/-- Look a key up in a payload (first match, insertion order). -/
def field (p : Payload) (k : String) : Option String :=
  (p.find? (fun e => e.1 == k)).map (fun e => e.2)

/-! ## Indicator fetch (`get_rsi_value`, lines 100–108) -/

/-- A JSON value in the indicator response, as far as `float()` cares:
either a number, or a value (`null`, object, array) on which Python's
`float()` raises. -/
inductive IndVal where
  | num : Rat → IndVal
  | nonFloat : IndVal
deriving DecidableEq

/-- The outcome of `requests.get(TAAPI_URL)` as `get_rsi_value` observes
it: the GET raises (transport error), or a response arrives with a status
code and a body that parses to a JSON object (`some fields`) or fails to
parse (`none`). -/
inductive FetchOutcome where
  | transportError : FetchOutcome
  | response : Nat → Option (List (String × IndVal)) → FetchOutcome
deriving DecidableEq

/-- `data["value"]`: `none` models the `KeyError`. -/
def lookupField (k : String) (body : List (String × IndVal)) : Option IndVal :=
  (body.find? (fun e => e.1 == k)).map (fun e => e.2)

/-- Python's `float(v)` on a JSON value: numbers convert, `null`/objects/
arrays raise (`none`). -/
def pyFloat : IndVal → Option Rat
  | .num q => some q
  | .nonFloat => none

/-- Lines 100–108: `float(data["value"])` under a bare `except` returning
`None`.  The status code is bound but never examined: any raising step —
the GET itself, `r.json()`, the `"value"` lookup, or `float` — yields
`none`; everything else returns the parsed value, whatever the status. -/
def get_rsi_value : FetchOutcome → Option Rat
  | .transportError => none
  | .response _status body =>
      match body with
      | none => none
      | some data =>
          match lookupField "value" data with
          | none => none
          | some v => pyFloat v

/-! ## Advisor glue (`get_ai_decision`, lines 110–133) -/

/-- The advisory call's outcome: the first choice's message text, or any
raised exception (transport, auth, malformed response) caught by the
handler on line 131. -/
inductive AiOutcome where
  | reply : String → AiOutcome
  | error : AiOutcome

/-- Lines 120–133: on success the TRIMMED, UPPERCASED reply text is
returned as-is (`content.strip().upper()`, line 128) — it is not mapped
into an enumeration; only the exception path returns `"NOTHING"`. -/
def get_ai_decision : AiOutcome → String
  | .reply content => pyUpper (pyStrip content)
  | .error => "NOTHING"

/-! ## One scheduler cycle (`main`, lines 138–163) -/

/-- The observable outcome of one iteration of `main`'s `while True` loop:
the order submissions made, in order, and the sleep that ends the cycle. -/
structure CycleResult where
  orders : List OrderReq
  sleep : Nat
deriving DecidableEq

/-- Lines 144–163, one loop iteration: skip (sleep 300) when the RSI is
unavailable; otherwise act on the decision string — `"BUY"` and `"SELL"`
each submit a close of the opposite side then an open, anything else
submits nothing — and sleep 300. -/
def main_cycle (fetch : FetchOutcome) (ai : AiOutcome) : CycleResult :=
  match get_rsi_value fetch with
  | none => { orders := [], sleep := 300 }
  | some _rsi =>
      let decision := get_ai_decision ai
      if decision = "BUY" then
        { orders := [close_position "buy", open_position "buy"], sleep := 300 }
      else if decision = "SELL" then
        { orders := [close_position "sell", open_position "sell"], sleep := 300 }
      else
        { orders := [], sleep := 300 }

/-! ## Definitions taken from the specification's words (for comparison)

`specSign` renders §4.1 of the specification literally: the canonical body
is the compact JSON serialization whenever a body is present, and the
empty string only when it is absent.  The theorems below compare it with
`generate_signature`, the embedding of the code. -/

/-- The spec's canonical body: compact JSON when present, `""` when
absent. -/
def specCanonicalBody : Option Payload → String
  | some l => pyDumpsCompact l
  | none => ""

/-- §4.1 rendered literally: base64 of the HMAC-SHA256 keyed by the secret
over `timestamp || uppercase(method) || path || specCanonicalBody`. -/
def specSign (timestamp method path : String) (body : Option Payload)
    (secret : String) : String :=
  base64Encode (hmacSha256 (utf8 secret)
    (utf8 (timestamp ++ pyUpper method ++ path ++ specCanonicalBody body)))

/-- The fetch outcomes on which some step of `get_rsi_value` raises: the
GET itself (transport error), `r.json()` (unparseable body), the
`"value"` lookup (missing field), or `float` (non-numeric field).  A
non-200 status is deliberately NOT among them — the code never reads
`r.status_code`. -/
def rsiUnavailableCause : FetchOutcome → Prop
  | .transportError => True
  | .response _ none => True
  | .response _ (some data) =>
      lookupField "value" data = none ∨
        lookupField "value" data = some IndVal.nonFloat

/-! ## Sanity anchors for the primitive embeddings -/

set_option maxRecDepth 40000

/-- FIPS 180-4 test vector: SHA-256 of `"abc"`. -/
theorem sha256_abc_vector :
    sha256 (utf8 "abc") =
      [0xba, 0x78, 0x16, 0xbf, 0x8f, 0x01, 0xcf, 0xea, 0x41, 0x41, 0x40, 0xde,
       0x5d, 0xae, 0x22, 0x23, 0xb0, 0x03, 0x61, 0xa3, 0x96, 0x17, 0x7a, 0x9c,
       0xb4, 0x10, 0xff, 0x61, 0xf2, 0x00, 0x15, 0xad] := by decide

/-- RFC-style HMAC-SHA256 test vector, base64-encoded. -/
theorem hmac_base64_vector :
    base64Encode (hmacSha256 (utf8 "key")
      (utf8 "The quick brown fox jumps over the lazy dog")) =
      "97yD9DBThCSxMpjmqm+xQ+9NWaFJRhdZl0edvC0aPNg=" := by decide

/-! ## Serialization length lemmas (shared helpers) -/

/-- Default-separator entries are exactly one byte longer per separator
than compact entries: one extra space after each of the n colons and each
of the n-1 commas. -/
theorem dumpsEntries_length (l : List (String × String)) (h : l ≠ []) :
    (dumpsEntries ", " ": " l).length =
      (dumpsEntries "," ":" l).length + (2 * l.length - 1) := by
  induction l with
  | nil => exact absurd rfl h
  | cons kv rest ih =>
      obtain ⟨k, v⟩ := kv
      cases rest with
      | nil =>
          have h1 : (": ").length = 2 := rfl
          have h2 : (":").length = 1 := rfl
          simp only [dumpsEntries, String.length_append, h1, h2,
            List.length_cons, List.length_nil]
          omega
      | cons e rest' =>
          have ih' := ih (by simp)
          have h1 : (": ").length = 2 := rfl
          have h2 : (":").length = 1 := rfl
          have h3 : (", ").length = 2 := rfl
          have h4 : (",").length = 1 := rfl
          simp only [dumpsEntries, String.length_append, h1, h2, h3, h4,
            List.length_cons] at ih' ⊢
          omega

/-- The compact and the default serialization of a non-empty object have
different lengths, hence differ. -/
theorem pyDumps_compact_ne_default (l : List (String × String)) (h : l ≠ []) :
    pyDumpsCompact l ≠ pyDumpsDefault l := by
  intro heq
  have hlen := congrArg String.length heq
  have hd := dumpsEntries_length l h
  have hl : 1 ≤ l.length := by
    cases l with
    | nil => exact absurd rfl h
    | cons a t => simp
  have hb : ("\x7b").length = 1 := rfl
  have he : ("\x7d").length = 1 := rfl
  simp only [pyDumpsCompact, pyDumpsDefault, dumpsObj, String.length_append,
    hb, he] at hlen
  omega

/-! ## The claims -/

/-- C1: in every cycle whose decision is `"BUY"`, the order trace is
exactly one close call whose payload targets the opposite (`"sell"`) side
with `tradeSide "close"`, followed by exactly one open call with side
`"buy"` and `tradeSide "open"`, and nothing else; symmetrically for
`"SELL"`. -/
theorem buy_sell_order_trace (fetch : FetchOutcome) (ai : AiOutcome)
    (h : (get_rsi_value fetch).isSome = true) :
    (get_ai_decision ai = "BUY" →
      (main_cycle fetch ai).orders = [close_position "buy", open_position "buy"] ∧
      field (close_position "buy").payload "side" = some "sell" ∧
      field (close_position "buy").payload "tradeSide" = some "close" ∧
      field (open_position "buy").payload "side" = some "buy" ∧
      field (open_position "buy").payload "tradeSide" = some "open") ∧
    (get_ai_decision ai = "SELL" →
      (main_cycle fetch ai).orders = [close_position "sell", open_position "sell"] ∧
      field (close_position "sell").payload "side" = some "buy" ∧
      field (close_position "sell").payload "tradeSide" = some "close" ∧
      field (open_position "sell").payload "side" = some "sell" ∧
      field (open_position "sell").payload "tradeSide" = some "open") := by
  obtain ⟨v, hv⟩ := Option.isSome_iff_exists.mp h
  constructor <;> intro hd <;>
    exact ⟨by simp [main_cycle, hv, hd], by decide, by decide, by decide, by decide⟩

/-- C1 witness: a cycle with RSI 25 available and the reply `"BUY"`. -/
theorem buy_sell_order_trace_witness :
    (get_rsi_value (FetchOutcome.response 200 (some [("value", IndVal.num 25)]))).isSome = true ∧
    (main_cycle (FetchOutcome.response 200 (some [("value", IndVal.num 25)]))
        (AiOutcome.reply "BUY")).orders =
      [close_position "buy", open_position "buy"] :=
  ⟨rfl,
    ((buy_sell_order_trace (FetchOutcome.response 200 (some [("value", IndVal.num 25)]))
      (AiOutcome.reply "BUY") rfl).1 rfl).1⟩

/-- C2 counterexample: with a present-but-empty body, the code signs the
empty canonical string (Python truthiness), not the compact serialization
of the empty object that §4.1 prescribes for a present body — the two
signatures differ. -/
theorem sign_empty_dict_deviates_from_spec :
    generate_signature "1700000000000" "post" "/api/v2/mix/order/place-order"
        (some []) "topsecret" ≠
      specSign "1700000000000" "post" "/api/v2/mix/order/place-order"
        (some []) "topsecret" := by decide

/-- C2 amended: the signature is base64 of the HMAC-SHA256 keyed by the
secret over the UTF-8 bytes of `timestamp || uppercase(method) || path ||
canonicalBody`, where `canonicalBody` is the compact JSON serialization of
the body when the body is truthy (present and non-empty) and the empty
string when the body is absent or the empty object — so an empty-object
body signs identically to an absent body.  The function is pure:
deterministic and body-preserving. -/
theorem sign_matches_spec_modulo_truthiness
    (timestamp method request_path secret_key : String) :
    (∀ body : Payload, body ≠ [] →
      generate_signature timestamp method request_path (some body) secret_key =
        specSign timestamp method request_path (some body) secret_key) ∧
    generate_signature timestamp method request_path none secret_key =
      specSign timestamp method request_path none secret_key ∧
    generate_signature timestamp method request_path (some []) secret_key =
      specSign timestamp method request_path none secret_key := by
  refine ⟨fun body hb => ?_, rfl, rfl⟩
  cases body with
  | nil => exact absurd rfl hb
  | cons e rest => rfl

/-- C2 witness: a concrete non-empty body on which the code and the spec
formula agree. -/
theorem sign_matches_spec_witness :
    ([("a", "b")] : Payload) ≠ [] ∧
    generate_signature "1" "POST" "/p" (some [("a", "b")]) "k" =
      specSign "1" "POST" "/p" (some [("a", "b")]) "k" :=
  ⟨by decide,
    (sign_matches_spec_modulo_truthiness "1" "POST" "/p" "k").1 [("a", "b")] (by decide)⟩

/-- C3: a reply whose stripped, uppercased text is neither exactly
`"BUY"` nor exactly `"SELL"` leads to a cycle with no order call, and an
advisory failure (caught exception) likewise; the cycle is a total
function — it cannot crash. -/
theorem nonmatching_reply_no_orders (fetch : FetchOutcome) (t : String)
    (h1 : pyUpper (pyStrip t) ≠ "BUY") (h2 : pyUpper (pyStrip t) ≠ "SELL") :
    (main_cycle fetch (AiOutcome.reply t)).orders = [] ∧
    (main_cycle fetch AiOutcome.error).orders = [] := by
  constructor <;>
    · unfold main_cycle
      cases hv : get_rsi_value fetch <;> simp [get_ai_decision, h1, h2]

/-- C3 witness: the multi-word reply from scenario D, with RSI data
available. -/
theorem nonmatching_reply_no_orders_witness :
    pyUpper (pyStrip "SELL please, very confident") ≠ "BUY" ∧
    pyUpper (pyStrip "SELL please, very confident") ≠ "SELL" ∧
    (main_cycle (FetchOutcome.response 200 (some [("value", IndVal.num 25)]))
      (AiOutcome.reply "SELL please, very confident")).orders = [] :=
  ⟨by decide, by decide,
    (nonmatching_reply_no_orders
      (FetchOutcome.response 200 (some [("value", IndVal.num 25)]))
      "SELL please, very confident" (by decide) (by decide)).1⟩

/-- C4 counterexample: the fetch does NOT map a non-200 status to
Unavailable — the status is never read, so a 500 response whose body
carries a numeric `value` field yields that value, not `none`. -/
theorem non200_with_value_is_used :
    get_rsi_value (FetchOutcome.response 500 (some [("value", IndVal.num 42)])) =
      some 42 ∧
    get_rsi_value (FetchOutcome.response 500 (some [("value", IndVal.num 42)])) ≠
      none := by
  refine ⟨rfl, fun hc => ?_⟩
  have h42 : (some (42 : Rat)) = (none : Option Rat) :=
    (rfl : get_rsi_value (FetchOutcome.response 500 (some [("value", IndVal.num 42)])) =
      some 42).symm.trans hc
  exact Option.noConfusion h42

/-- C4 amended: a transport error, an unparseable body, a missing
`"value"` field or a non-numeric `"value"` field makes the fetch return
`none` without raising (the status code is not consulted), and a cycle
whose fetch returned `none` makes no order call and sleeps the standard
300-second interval. -/
theorem fetch_failure_skips_cycle (o : FetchOutcome)
    (h : rsiUnavailableCause o) (ai : AiOutcome) :
    get_rsi_value o = none ∧ (main_cycle o ai).orders = [] ∧
    (main_cycle o ai).sleep = 300 := by
  have hn : get_rsi_value o = none := by
    cases o with
    | transportError => rfl
    | response st body =>
        cases body with
        | none => rfl
        | some data =>
            simp only [rsiUnavailableCause] at h
            rcases h with h | h <;> simp [get_rsi_value, h, pyFloat]
  exact ⟨hn, by simp [main_cycle, hn], by simp [main_cycle, hn]⟩

/-- C4 witness: an unparseable indicator body. -/
theorem fetch_failure_skips_cycle_witness :
    get_rsi_value (FetchOutcome.response 200 none) = none ∧
    (main_cycle (FetchOutcome.response 200 none) AiOutcome.error).orders = [] ∧
    (main_cycle (FetchOutcome.response 200 none) AiOutcome.error).sleep = 300 :=
  fetch_failure_skips_cycle (FetchOutcome.response 200 none) trivial AiOutcome.error

/-- C5: when the response body fails to parse as JSON, `bitget_request`
returns (totally, without raising) the structured value
`{"error": <raw response text>}`. -/
theorem malformed_response_returns_error (resp : HttpResponse)
    (h : resp.json = none) :
    (bitget_request_handle resp).result =
      ExJson.obj [("error", ExJson.str resp.text)] := by
  simp [bitget_request_handle, h]

/-- C5 witness: a 502 response with a non-JSON body. -/
theorem malformed_response_returns_error_witness :
    (HttpResponse.mk 502 "Bad Gateway" none).json = none ∧
    (bitget_request_handle (HttpResponse.mk 502 "Bad Gateway" none)).result =
      ExJson.obj [("error", ExJson.str "Bad Gateway")] :=
  ⟨rfl, malformed_response_returns_error (HttpResponse.mk 502 "Bad Gateway" none) rfl⟩

/-- C6 counterexample: the advisor-decision operation does not return a
value of the three-label enumeration — the reply `" hold "` comes back as
the string `"HOLD"`, which is none of `"BUY"`, `"SELL"`, `"NOTHING"`. -/
theorem ai_decision_outside_enum :
    get_ai_decision (AiOutcome.reply " hold ") = "HOLD" ∧
    ("HOLD" : String) ≠ "BUY" ∧ ("HOLD" : String) ≠ "SELL" ∧
    ("HOLD" : String) ≠ "NOTHING" :=
  ⟨by decide, by decide, by decide, by decide⟩

/-- C6 amended: `get_ai_decision` returns the stripped, uppercased reply
text verbatim (an arbitrary string; `"NOTHING"` only on failure); the
enumeration is realized one level up, where the scheduler treats every
string other than `"BUY"` and `"SELL"` as the no-action arm, so each
cycle's order trace is one of exactly three behaviours. -/
theorem cycle_action_trichotomy :
    (∀ fetch ai,
      (main_cycle fetch ai).orders = [close_position "buy", open_position "buy"] ∨
      (main_cycle fetch ai).orders = [close_position "sell", open_position "sell"] ∨
      (main_cycle fetch ai).orders = []) ∧
    get_ai_decision AiOutcome.error = "NOTHING" := by
  refine ⟨fun fetch ai => ?_, rfl⟩
  unfold main_cycle
  cases get_rsi_value fetch with
  | none => simp
  | some v =>
      by_cases hb : get_ai_decision ai = "BUY"
      · simp [hb]
      · by_cases hs : get_ai_decision ai = "SELL" <;> simp [hb, hs]

/-- C7: for a side to be opened, the close payload targets the opposite
side with `tradeSide "close"` and the fixed size `"1000"`, while the open
payload uses the decision side, `tradeSide "open"` and the fixed size
`"0.05"`; the two size constants differ, and neither function takes any
live-position input. -/
theorem close_open_payload_policy (side : String)
    (h : side = "buy" ∨ side = "sell") :
    field (close_position side).payload "side" =
      some (if side = "buy" then "sell" else "buy") ∧
    field (close_position side).payload "tradeSide" = some "close" ∧
    field (close_position side).payload "size" = some "1000" ∧
    field (open_position side).payload "side" = some side ∧
    field (open_position side).payload "tradeSide" = some "open" ∧
    field (open_position side).payload "size" = some "0.05" ∧
    ("1000" : String) ≠ "0.05" := by
  rcases h with h | h <;> subst h <;> exact
    ⟨by decide, by decide, by decide, by decide, by decide, by decide, by decide⟩

/-- C7 witness: the `"buy"` side. -/
theorem close_open_payload_policy_witness :
    (("buy" : String) = "buy" ∨ ("buy" : String) = "sell") ∧
    field (close_position "buy").payload "side" = some "sell" ∧
    field (open_position "buy").payload "size" = some "0.05" :=
  ⟨Or.inl rfl,
    (close_open_payload_policy "buy" (Or.inl rfl)).1,
    (close_open_payload_policy "buy" (Or.inl rfl)).2.2.2.2.2.1⟩

/-- C8 counterexample: the status code is not surfaced to the caller —
two responses that differ only in status (200 vs 503) produce identical
return values, so the caller cannot recover the status from what the
operation returns; the status reaches only the console log. -/
theorem status_not_returned_to_caller :
    (200 : Nat) ≠ 503 ∧
    (bitget_request_handle (HttpResponse.mk 200 "body" (some (ExJson.obj [])))).result =
      (bitget_request_handle (HttpResponse.mk 503 "body" (some (ExJson.obj [])))).result :=
  ⟨by decide, rfl⟩

/-- C8 amended: the request operation returns the parsed-or-raw body to
its caller, and surfaces the HTTP status only on the printed trace
(together with the body), regardless of success or failure. -/
theorem request_logs_status_returns_body (resp : HttpResponse) :
    (bitget_request_handle resp).logged_status = resp.status_code ∧
    (bitget_request_handle resp).logged_result = (bitget_request_handle resp).result ∧
    (∀ r, resp.json = some r → (bitget_request_handle resp).result = r) ∧
    (resp.json = none →
      (bitget_request_handle resp).result =
        ExJson.obj [("error", ExJson.str resp.text)]) := by
  refine ⟨rfl, rfl, fun r hr => ?_, fun hn => ?_⟩
  · simp [bitget_request_handle, hr]
  · simp [bitget_request_handle, hn]

/-- C8 amended witness: a 404 response whose body parses. -/
theorem request_logs_status_returns_body_witness :
    (bitget_request_handle (HttpResponse.mk 404 "t" (some (ExJson.str "ok")))).logged_status = 404 ∧
    (bitget_request_handle (HttpResponse.mk 404 "t" (some (ExJson.str "ok")))).result =
      ExJson.str "ok" :=
  ⟨(request_logs_status_returns_body (HttpResponse.mk 404 "t" (some (ExJson.str "ok")))).1,
    (request_logs_status_returns_body (HttpResponse.mk 404 "t" (some (ExJson.str "ok")))).2.2.1
      (ExJson.str "ok") rfl⟩

/-- C9: for every non-empty payload, the string the signature covers
(`body_str`, the compact serialization) differs from the body the HTTP
call transmits (`data`, the default serialization with a space after each
separator) — the signature does not cover the transmitted bytes. -/
theorem signed_body_ne_transmitted_body (payload : Payload) (h : payload ≠ []) :
    body_str (some payload) = pyDumpsCompact payload ∧
    (∀ timestamp secret method endpoint,
      (bitget_request_sent timestamp secret method endpoint payload).data =
        pyDumpsDefault payload) ∧
    pyDumpsCompact payload ≠ pyDumpsDefault payload := by
  refine ⟨?_, fun _ _ _ _ => rfl, pyDumps_compact_ne_default payload h⟩
  cases payload with
  | nil => exact absurd rfl h
  | cons e rest => rfl

/-- C9 witness: the close-order payload for the `"buy"` side. -/
theorem signed_body_ne_transmitted_body_witness :
    (close_position "buy").payload ≠ [] ∧
    pyDumpsCompact (close_position "buy").payload ≠
      pyDumpsDefault (close_position "buy").payload :=
  ⟨by decide,
    (signed_body_ne_transmitted_body (close_position "buy").payload (by decide)).2.2⟩

/-- C10: signing with the empty-object body yields the same signature as
signing with an absent body, for every timestamp, method, path and
secret: line 37 tests the body for truthiness, not presence, and both are
falsy. -/
theorem empty_body_signs_as_absent
    (timestamp method request_path secret_key : String) :
    generate_signature timestamp method request_path (some []) secret_key =
      generate_signature timestamp method request_path none secret_key := rfl

end RSIAgent
